import Mathlib

/-!
Shallow embedding of `generate_story_images.py` (story image batch
generator).  External capabilities (the DALL-E generation endpoint, the
Firebase storage bucket, the local filesystem) are modelled as oracle
functions inside `Env`; the side effects the script performs are recorded
as an explicit event trace.  Machine-level details that the script never
observes (image bytes, sleeps, stdout formatting) are not modelled; every
branch and state update of the script is.
-/

set_option linter.unusedVariables false

namespace GenStoryImages

/-- Story record: one entry of `stories.json`.  The script reads `id` and
`title` directly and reads `imagePrompt` / `coverImageURL` through
`dict.get` with default `""`; an absent field is therefore modelled as the
empty string. -/
structure Story where
  id : String
  title : String
  imagePrompt : String
  difficultyLevel : Int
  coverImageURL : String
  updatedAt : String
deriving DecidableEq, Repr

/-- Default record used for out-of-range `getD` reads (the claims only use
in-bounds indices, where the default is never produced). -/
def defaultStory : Story :=
  { id := "", title := "", imagePrompt := "", difficultyLevel := 0,
    coverImageURL := "", updatedAt := "" }

/-- Observable side effects of a run, in program order. -/
inductive Event where
  | initFirebase : Event
  | initOpenAI : Event
  | loadDataset : Event
  | makeDirs : Event
  | genCall (prompt : String) : Event
  | fileWrite (path : String) : Event
  | uploadCall (path : String) : Event
  | saveDataset : Event
deriving DecidableEq, Repr

/-- External capabilities: `alnum` is the character classification used by
Python `str.isalnum` (kept abstract because it is Unicode-wide; witnesses
instantiate it with the ASCII `Char.isAlphanum`); `gen` says whether a
DALL-E generation request with a given prompt succeeds end to end
(generation, download, local save); `upload` maps a remote blob path to
the public URL Firebase returns, or `none` when the upload raises. -/
structure Env where
  alnum : Char → Bool
  gen : String → Bool
  upload : String → Option String

/-- Python substring test `needle in haystack` on lists of characters. -/
def listContains (needle : List Char) : List Char → Bool
  | [] => needle.isEmpty
  | c :: rest => needle.isPrefixOf (c :: rest) || listContains needle rest

/-- Python substring test `needle in haystack` on strings. -/
def pyInStr (needle hay : String) : Bool :=
  listContains needle.toList hay.toList

/-- The fixed marker substring of line 138, tested with Python `in`
against `existing_url`. -/
def firebaseMarker : String := "firebasestorage"

/-- Python whitespace characters stripped by `str.rstrip()` (ASCII part;
after the sanitizing filter only the space can actually remain). -/
def pyIsSpaceChar (c : Char) : Bool :=
  c = ' ' || c = '\t' || c = '\n' || c = '\r' || c = '\x0b' || c = '\x0c'

/-- Python `str.rstrip()` on a character list: drop trailing whitespace. -/
def pyRstrip (l : List Char) : List Char :=
  (l.reverse.dropWhile pyIsSpaceChar).reverse

/-- Characters kept by the sanitizer of line 145:
`c.isalnum() or c in (' ', '-', '_')`. -/
def keepChar (alnum : Char → Bool) (c : Char) : Bool :=
  alnum c || c = ' ' || c = '-' || c = '_'

/-- Lines 145-146: `safe_title = "".join(c for c in title if c.isalnum() or
c in (' ', '-', '_')).rstrip()` then `safe_title.replace(' ', '_')[:50]`. -/
def safeTitle (alnum : Char → Bool) (title : String) : String :=
  String.mk
    (((pyRstrip (title.toList.filter (keepChar alnum))).map
        (fun c => if c = ' ' then '_' else c)).take 50)

/-- Python `f"{n:03d}"` for a natural number: zero-pad to width 3. -/
def pad3 (n : Nat) : String :=
  let s := toString n
  if s.length < 3 then String.mk (List.replicate (3 - s.length) '0') ++ s else s

/-- Line 147: `local_filename = f"story_{story_index:03d}_{safe_title}.png"`. -/
def localFilename (alnum : Char → Bool) (story_index : Nat) (title : String) : String :=
  "story_" ++ pad3 story_index ++ "_" ++ safeTitle alnum title ++ ".png"

/-- The images working directory (`IMAGES_DIR = "generated_images"`). -/
def IMAGES_DIR : String := "generated_images"

/-- Line 148: `local_path = os.path.join(images_dir, local_filename)`. -/
def localPath (alnum : Char → Bool) (story_index : Nat) (title : String) : String :=
  IMAGES_DIR ++ "/" ++ localFilename alnum story_index title

/-- Line 163: `remote_path = f"story_covers/{local_filename}"`. -/
def remotePath (alnum : Char → Bool) (story_index : Nat) (title : String) : String :=
  "story_covers/" ++ localFilename alnum story_index title

/-- Lines 72-77: the prompt embellished with the fixed style suffix. -/
def enhancedPrompt (prompt : String) : String :=
  "\n" ++ prompt ++
    "\n\nStyle: Childrens picture book illustration, warm and inviting, soft lighting, \ndetailed but not overwhelming, suitable for young readers, family-friendly atmosphere.\n"

/-- Result of `generate_image` (lines 69-106): on success the image is
downloaded and written to `output_path` (a `fileWrite` event and a new
cache entry) and the function returns the output path; on any failure it
returns `none`.  The generation request itself is always recorded. -/
def generate_image (env : Env) (prompt : String) (output_path : String)
    (cache : List String) : Option String × List Event × List String :=
  if env.gen (enhancedPrompt prompt) = true then
    (some output_path,
     [Event.genCall (enhancedPrompt prompt), Event.fileWrite output_path],
     output_path :: cache)
  else
    (none, [Event.genCall (enhancedPrompt prompt)], cache)

/-- Result of `upload_to_firebase` (lines 109-123): one upload call; the
oracle gives the public URL or `none` when the upload raises. -/
def upload_to_firebase (env : Env) (remote_path : String) :
    Option String × List Event :=
  (env.upload remote_path, [Event.uploadCall remote_path])

/-- Result record of `process_story`: the returned URL (or `none`), the
external calls and file writes performed, and the updated local file cache. -/
structure ProcResult where
  url? : Option String
  events : List Event
  cache : List String
deriving DecidableEq, Repr

/-- Lines 126-166, `process_story`: empty-prompt guard, already-uploaded
marker guard, local-file reuse, generation, upload.  The local file cache
(`os.path.exists`) is the list `cache`. -/
def process_story (env : Env) (story : Story) (story_index : Nat)
    (cache : List String) : ProcResult :=
  let prompt := story.imagePrompt
  if prompt = "" then
    { url? := none, events := [], cache := cache }
  else
    let existing_url := story.coverImageURL
    if existing_url ≠ "" ∧ pyInStr firebaseMarker existing_url = true then
      { url? := some existing_url, events := [], cache := cache }
    else
      let local_path := localPath env.alnum story_index story.title
      let remote_path := remotePath env.alnum story_index story.title
      if local_path ∈ cache then
        let u := upload_to_firebase env remote_path
        { url? := u.1, events := u.2, cache := cache }
      else
        match generate_image env prompt local_path cache with
        | (some _, gev, cache2) =>
          let u := upload_to_firebase env remote_path
          { url? := u.1, events := gev ++ u.2, cache := cache2 }
        | (none, gev, cache2) =>
          { url? := none, events := gev, cache := cache2 }

/-- Lines 169-172, `update_stories_json`: set `coverImageURL` to the new
URL and `updatedAt` to `datetime.now().isoformat() + 'Z'` (the isoformat
string is the parameter `nowIso`). -/
def update_stories_json (stories : List Story) (story_index : Nat)
    (image_url : String) (nowIso : String) : List Story :=
  stories.set story_index
    { stories.getD story_index defaultStory with
        coverImageURL := image_url, updatedAt := nowIso ++ "Z" }

/-- Mutable state of the orchestrator loop of `main` (lines 238-260),
instrumented: `trace` records external calls and dataset writes in order;
`saves` records the value of `success_count` at each `save_stories_json`
call. -/
structure LoopState where
  stories : List Story
  cache : List String
  success_count : Nat
  fail_count : Nat
  trace : List Event
  saves : List Nat
deriving DecidableEq, Repr

/-- One iteration of the loop of lines 241-260: process the story, on a
non-empty result update the record and checkpoint every 5th success,
otherwise count a failure. -/
def stepStory (env : Env) (nowIso : String) (st : LoopState)
    (story_index : Nat) : LoopState :=
  let story := st.stories.getD story_index defaultStory
  let r := process_story env story story_index st.cache
  match r.url? with
  | some image_url =>
    let sc := st.success_count + 1
    { stories := update_stories_json st.stories story_index image_url nowIso,
      cache := r.cache,
      success_count := sc,
      fail_count := st.fail_count,
      trace := st.trace ++ r.events ++
        (if sc % 5 = 0 then [Event.saveDataset] else []),
      saves := st.saves ++ (if sc % 5 = 0 then [sc] else []) }
  | none =>
    { stories := st.stories,
      cache := r.cache,
      success_count := st.success_count,
      fail_count := st.fail_count + 1,
      trace := st.trace ++ r.events,
      saves := st.saves }

/-- The whole batch of lines 238-263: fold the loop over the selected
indices, then perform the unconditional final `save_stories_json`. -/
def runBatch (env : Env) (nowIso : String) (stories : List Story)
    (cache : List String) (indices : List Nat) : LoopState :=
  let final := indices.foldl (stepStory env nowIso)
    { stories := stories, cache := cache, success_count := 0, fail_count := 0,
      trace := [], saves := [] }
  { final with trace := final.trace ++ [Event.saveDataset],
               saves := final.saves ++ [final.success_count] }

/-- Summary line 271: estimated cost in cents, `success_count * 0.04`
dollars = `success_count * 4` cents. -/
def estCostCents (st : LoopState) : Nat := st.success_count * 4

/-- Number of generation requests in a trace. -/
def genCalls (tr : List Event) : Nat :=
  tr.countP fun e => match e with | Event.genCall _ => true | _ => false

/-- Number of upload requests in a trace. -/
def uploadCalls (tr : List Event) : Nat :=
  tr.countP fun e => match e with | Event.uploadCall _ => true | _ => false

/-- Number of local file writes in a trace. -/
def fileWrites (tr : List Event) : Nat :=
  tr.countP fun e => match e with | Event.fileWrite _ => true | _ => false

/-- Parsed CLI arguments (lines 183-190): `level` is `None` or an integer;
`start` defaults to 0 and `count` to 10. -/
structure Args where
  test : Bool
  level : Option Int
  start : Int
  count : Int
  all : Bool
deriving DecidableEq, Repr

/-- Python truthiness of `args.level` in `elif args.level:`: `None` and
`0` are falsy. -/
def pyTruthyIntOpt (o : Option Int) : Bool :=
  match o with
  | none => false
  | some l => decide (l ≠ 0)

/-- Python `range(a, b)` over integers, as the list `[a, a+1, ..., b-1]`. -/
def pyRangeInt (a b : Int) : List Int :=
  (List.range (b - a).toNat).map (fun (k : Nat) => a + (k : Int))

/-- Level-filter selection of line 221:
the comprehension over `enumerate(stories)` keeping the indices whose
record has `difficultyLevel == level`. -/
def levelSelect (stories : List Story) (level : Int) : List Int :=
  ((List.range stories.length).filter
      (fun i => (stories.getD i defaultStory).difficultyLevel = level)).map
    (fun (i : Nat) => (i : Int))

/-- Mode dispatch of lines 217-235.  `none` is the aborted run of the
full mode when the typed confirmation differs from the literal `yes`
(lines 228-231); otherwise the selected indices.  In the level branch
`args.level` is some nonzero `l` and `getD` returns exactly it. -/
def chooseIndices (args : Args) (stories : List Story)
    (confirmInput : String) : Option (List Int) :=
  if args.test = true then
    some [(0 : Int)]
  else if pyTruthyIntOpt args.level = true then
    some (levelSelect stories (args.level.getD 0))
  else if args.all = true then
    if confirmInput = "yes" then some (pyRangeInt 0 stories.length) else none
  else
    some (pyRangeInt args.start (min (args.start + args.count)
      (stories.length : Int)))

/-- Outcome of one `main` invocation: process exit status (Python `return`
from `main` exits with 0, `sys.exit(1)` with 1), the two diagnostic
prints, the I/O trace, and the final in-memory dataset and counters. -/
structure MainResult where
  exitCode : Nat
  printedGuidance : Bool
  printedCancelled : Bool
  ioTrace : List Event
  stories : List Story
  saves : List Nat
  success_count : Nat
  fail_count : Nat
deriving DecidableEq, Repr

/-- Lines 182-273, `main`: the credential guard of lines 193-196 runs
before any I/O and plain-returns; then Firebase init, OpenAI init (whose
own guard of lines 61-65 would `sys.exit(1)` but is unreachable, the
environment being read twice in one process), dataset load, `os.makedirs`,
mode dispatch, the loop, and the final save.  `apiKey` models
`os.getenv("OPENAI_API_KEY")`.  Selected indices are nonnegative in every
reachable claim instance; they enter the loop through `Int.toNat`. -/
def mainRun (env : Env) (apiKey : Option String) (args : Args)
    (confirmInput : String) (stories0 : List Story) (cache0 : List String)
    (nowIso : String) : MainResult :=
  if apiKey.getD "" = "" then
    { exitCode := 0, printedGuidance := true, printedCancelled := false,
      ioTrace := [], stories := stories0, saves := [],
      success_count := 0, fail_count := 0 }
  else if apiKey.getD "" = "" then
    { exitCode := 1, printedGuidance := true, printedCancelled := false,
      ioTrace := [Event.initFirebase], stories := stories0, saves := [],
      success_count := 0, fail_count := 0 }
  else
    match chooseIndices args stories0 confirmInput with
    | none =>
      { exitCode := 0, printedGuidance := false, printedCancelled := true,
        ioTrace := [Event.initFirebase, Event.initOpenAI,
          Event.loadDataset, Event.makeDirs],
        stories := stories0, saves := [],
        success_count := 0, fail_count := 0 }
    | some idxs =>
      let r := runBatch env nowIso stories0 cache0 (idxs.map Int.toNat)
      { exitCode := 0, printedGuidance := false, printedCancelled := false,
        ioTrace := [Event.initFirebase, Event.initOpenAI,
          Event.loadDataset, Event.makeDirs] ++ r.trace,
        stories := r.stories, saves := r.saves,
        success_count := r.success_count, fail_count := r.fail_count }

/-! Helper lemmas about `process_story`. -/

/-- A record with an empty prompt is rejected before any external call. -/
theorem process_story_of_empty (env : Env) (story : Story) (i : Nat)
    (cache : List String) (h : story.imagePrompt = "") :
    process_story env story i cache =
      { url? := none, events := [], cache := cache } := by
  simp [process_story, h]

/-- A string containing the marker is nonempty. -/
theorem ne_empty_of_pyInStr_marker {u : String}
    (h : pyInStr firebaseMarker u = true) : u ≠ "" := by
  intro he
  rw [he] at h
  exact absurd h (by decide)

/-- A record whose URL bears the marker is returned unchanged with no
external call and no cache change. -/
theorem process_story_of_marker (env : Env) (story : Story) (i : Nat)
    (cache : List String) (h1 : story.imagePrompt ≠ "")
    (h2 : pyInStr firebaseMarker story.coverImageURL = true) :
    process_story env story i cache =
      { url? := some story.coverImageURL, events := [], cache := cache } := by
  have hne : story.coverImageURL ≠ "" := ne_empty_of_pyInStr_marker h2
  simp [process_story, h1, h2, hne]

/-- Concrete environment for witnesses and counterexamples: ASCII
alphanumerics, generation always fails, uploads always fail. -/
def cexEnv : Env :=
  { alnum := Char.isAlphanum, gen := fun _ => false, upload := fun _ => none }

/-- Concrete environment whose generation succeeds and whose uploads
return a marker-bearing public URL. -/
def okEnv : Env :=
  { alnum := Char.isAlphanum, gen := fun _ => true,
    upload := fun p => some ("https://storage.googleapis.com/x.firebasestorage.app/" ++ p) }

/-- Record whose URL already bears the storage marker. -/
def markerStory : Story :=
  { id := "s0", title := "T0", imagePrompt := "p0", difficultyLevel := 1,
    coverImageURL := "https://storage.googleapis.com/a.firebasestorage.app/story_covers/x.png",
    updatedAt := "old0" }

/-- Record with a prompt, no URL; generation for it fails under `cexEnv`. -/
def failStory : Story :=
  { id := "s1", title := "T1", imagePrompt := "q1", difficultyLevel := 2,
    coverImageURL := "", updatedAt := "old1" }

/-- Record with an empty prompt and a marker-bearing URL. -/
def emptyPromptMarkerStory : Story :=
  { id := "s2", title := "T2", imagePrompt := "", difficultyLevel := 3,
    coverImageURL := "https://storage.googleapis.com/a.firebasestorage.app/story_covers/y.png",
    updatedAt := "old2" }

/-- Loop state holding only `emptyPromptMarkerStory`. -/
def emptyPromptState : LoopState :=
  { stories := [emptyPromptMarkerStory], cache := [], success_count := 0,
    fail_count := 0, trace := [], saves := [] }

/-- C7: a selected record whose `imagePrompt` is absent or empty (both
read back as the empty string through the `story.get` default)
yields a failure result — `process_story` returns `None` with no
generation call, no upload call and no file write, and the orchestrator
step counts one more failure, touching nothing else. -/
theorem c7_empty_prompt_fails (env : Env) (nowIso : String) (st : LoopState)
    (i : Nat) (h : (st.stories.getD i defaultStory).imagePrompt = "") :
    process_story env (st.stories.getD i defaultStory) i st.cache =
      { url? := none, events := [], cache := st.cache } ∧
    stepStory env nowIso st i = { st with fail_count := st.fail_count + 1 } := by
  have hp := process_story_of_empty env (st.stories.getD i defaultStory) i st.cache h
  refine ⟨hp, ?_⟩
  simp only [stepStory]
  rw [hp]
  simp

/-- Witness for C7 at a concrete record with an empty prompt. -/
theorem c7_witness :
    process_story cexEnv (emptyPromptState.stories.getD 0 defaultStory) 0
        emptyPromptState.cache =
      { url? := none, events := [], cache := emptyPromptState.cache } ∧
    stepStory cexEnv "T" emptyPromptState 0 =
      { emptyPromptState with fail_count := emptyPromptState.fail_count + 1 } :=
  c7_empty_prompt_fails cexEnv "T" emptyPromptState 0 (by decide)

/-- C9: when the prompt is non-empty, the stored URL does not bear the
marker, and the local image file already exists, processing performs no
generation call and no file write, still performs the upload call, and
returns exactly what the upload returns (the public URL on success). -/
theorem c9_local_file_reused (env : Env) (story : Story) (i : Nat)
    (cache : List String) (h1 : story.imagePrompt ≠ "")
    (h2 : pyInStr firebaseMarker story.coverImageURL = false)
    (h3 : localPath env.alnum i story.title ∈ cache) :
    process_story env story i cache =
      { url? := env.upload (remotePath env.alnum i story.title),
        events := [Event.uploadCall (remotePath env.alnum i story.title)],
        cache := cache } ∧
    genCalls [Event.uploadCall (remotePath env.alnum i story.title)] = 0 ∧
    fileWrites [Event.uploadCall (remotePath env.alnum i story.title)] = 0 := by
  refine ⟨?_, rfl, rfl⟩
  simp [process_story, upload_to_firebase, h1, h2, h3]

/-- Witness for C9: `failStory` with its local file already cached. -/
theorem c9_witness :
    process_story okEnv failStory 1
        [localPath okEnv.alnum 1 failStory.title] =
      { url? := okEnv.upload (remotePath okEnv.alnum 1 failStory.title),
        events := [Event.uploadCall (remotePath okEnv.alnum 1 failStory.title)],
        cache := [localPath okEnv.alnum 1 failStory.title] } ∧
    genCalls [Event.uploadCall (remotePath okEnv.alnum 1 failStory.title)] = 0 ∧
    fileWrites [Event.uploadCall (remotePath okEnv.alnum 1 failStory.title)] = 0 :=
  c9_local_file_reused okEnv failStory 1
    [localPath okEnv.alnum 1 failStory.title]
    (by decide) (by decide) (List.mem_singleton.mpr rfl)

/-- C10 counterexample: the claim quantifies over every selected record
whose URL bears the marker, but the empty-prompt guard runs first
(line 132 before line 138), so a marker-bearing record with an empty
prompt is counted as a failure, not a success. -/
theorem c10_counterexample :
    pyInStr firebaseMarker
        ((emptyPromptState.stories.getD 0 defaultStory).coverImageURL) = true ∧
    (stepStory cexEnv "T" emptyPromptState 0).success_count = 0 ∧
    (stepStory cexEnv "T" emptyPromptState 0).fail_count = 1 := by
  decide

/-- C10 amended: a selected record whose prompt is non-empty and whose
URL bears the marker is counted as a success: the success counter is
incremented, the record is rewritten through `update_stories_json` (same
URL, `updatedAt` set to the current time), a checkpoint save happens
exactly when the new success count is a multiple of 5, no generation or
upload call is added to the trace, and the estimated cost includes it at
4 cents (0.04 dollars) per success. -/
theorem c10_marker_counted_success (env : Env) (nowIso : String)
    (st : LoopState) (i : Nat)
    (h1 : (st.stories.getD i defaultStory).imagePrompt ≠ "")
    (h2 : pyInStr firebaseMarker
        ((st.stories.getD i defaultStory).coverImageURL) = true) :
    stepStory env nowIso st i =
      { st with
          stories := update_stories_json st.stories i
            ((st.stories.getD i defaultStory).coverImageURL) nowIso,
          success_count := st.success_count + 1,
          trace := st.trace ++
            (if (st.success_count + 1) % 5 = 0 then [Event.saveDataset] else []),
          saves := st.saves ++
            (if (st.success_count + 1) % 5 = 0 then [st.success_count + 1] else []) } ∧
    genCalls (stepStory env nowIso st i).trace = genCalls st.trace ∧
    uploadCalls (stepStory env nowIso st i).trace = uploadCalls st.trace ∧
    estCostCents (stepStory env nowIso st i) = (st.success_count + 1) * 4 := by
  have hp := process_story_of_marker env (st.stories.getD i defaultStory) i
    st.cache h1 h2
  have hstep : stepStory env nowIso st i =
      { st with
          stories := update_stories_json st.stories i
            ((st.stories.getD i defaultStory).coverImageURL) nowIso,
          success_count := st.success_count + 1,
          trace := st.trace ++
            (if (st.success_count + 1) % 5 = 0 then [Event.saveDataset] else []),
          saves := st.saves ++
            (if (st.success_count + 1) % 5 = 0 then [st.success_count + 1] else []) } := by
    simp only [stepStory]
    rw [hp]
    simp
  refine ⟨hstep, ?_, ?_, ?_⟩
  · rw [hstep]
    by_cases h5 : (st.success_count + 1) % 5 = 0 <;>
      simp [h5, genCalls, List.countP_append, List.countP_cons, List.countP_nil]
  · rw [hstep]
    by_cases h5 : (st.success_count + 1) % 5 = 0 <;>
      simp [h5, uploadCalls, List.countP_append, List.countP_cons, List.countP_nil]
  · rw [hstep]
    rfl

/-- Loop state holding only `markerStory`, with nonzero counters so the
witness exercises the counter arithmetic. -/
def markerState : LoopState :=
  { stories := [markerStory], cache := [], success_count := 4,
    fail_count := 2, trace := [], saves := [] }

/-- Witness for the amended C10: the fifth success on a marker-bearing
record triggers the checkpoint. -/
theorem c10_witness :
    stepStory cexEnv "T" markerState 0 =
      { markerState with
          stories := update_stories_json markerState.stories 0
            ((markerState.stories.getD 0 defaultStory).coverImageURL) "T",
          success_count := markerState.success_count + 1,
          trace := markerState.trace ++
            (if (markerState.success_count + 1) % 5 = 0 then [Event.saveDataset] else []),
          saves := markerState.saves ++
            (if (markerState.success_count + 1) % 5 = 0
              then [markerState.success_count + 1] else []) } ∧
    genCalls (stepStory cexEnv "T" markerState 0).trace = genCalls markerState.trace ∧
    uploadCalls (stepStory cexEnv "T" markerState 0).trace =
      uploadCalls markerState.trace ∧
    estCostCents (stepStory cexEnv "T" markerState 0) =
      (markerState.success_count + 1) * 4 :=
  c10_marker_counted_success cexEnv "T" markerState 0 (by decide) (by decide)

/-- Default windowed-mode arguments with a concrete key check input. -/
def windowArgs : Args :=
  { test := false, level := none, start := 0, count := 10, all := false }

/-- Full-mode arguments. -/
def allArgs : Args :=
  { test := false, level := none, start := 0, count := 10, all := true }

/-- C2 counterexample: with the credential variable unset the script
prints guidance and returns from `main` normally (line 196 is a plain
`return`, not `sys.exit(1)`), so the process exit status is 0, not
non-zero as the claim states. -/
theorem c2_counterexample :
    (mainRun cexEnv none windowArgs "x" [markerStory] [] "T").exitCode = 0 ∧
    (mainRun cexEnv none windowArgs "x" [markerStory] [] "T").printedGuidance = true ∧
    (mainRun cexEnv none windowArgs "x" [markerStory] [] "T").ioTrace = [] := by
  decide

/-- C2 amended: with the credential variable unset (or empty, both falsy
to `os.getenv`), `main` prints the guidance text and returns before any
I/O — no client initialization, no dataset read, no directory creation,
no dataset write, no record mutation — and the process exits with
status zero (not non-zero: the guard at lines 193-196 returns normally
and the `sys.exit(1)` of `initialize_openai` is never reached). -/
theorem c2_missing_key_aborts (env : Env) (apiKey : Option String)
    (args : Args) (confirmInput : String) (stories0 : List Story)
    (cache0 : List String) (nowIso : String)
    (h : apiKey.getD "" = "") :
    mainRun env apiKey args confirmInput stories0 cache0 nowIso =
      { exitCode := 0, printedGuidance := true, printedCancelled := false,
        ioTrace := [], stories := stories0, saves := [],
        success_count := 0, fail_count := 0 } := by
  simp [mainRun, h]

/-- Witness for the amended C2 at the unset credential. -/
theorem c2_witness :
    mainRun cexEnv none windowArgs "x" [markerStory] [] "T" =
      { exitCode := 0, printedGuidance := true, printedCancelled := false,
        ioTrace := [], stories := [markerStory], saves := [],
        success_count := 0, fail_count := 0 } :=
  c2_missing_key_aborts cexEnv none windowArgs "x" [markerStory] [] "T" rfl

/-- C3 counterexample: the claim says a declined full-mode confirmation
leaves no side effect, including no creation of the images directory; but
`os.makedirs(IMAGES_DIR)` at line 214 runs before the confirmation prompt
of line 228, so the directory creation has already happened on the
aborted run. -/
theorem c3_counterexample :
    (mainRun cexEnv (some "k") allArgs "no" [markerStory] [] "T").printedCancelled
        = true ∧
    Event.makeDirs ∈ (mainRun cexEnv (some "k") allArgs "no" [markerStory] [] "T").ioTrace := by
  decide

/-- C3 amended: in full mode, any confirmation input other than the
literal `yes` aborts with exit status zero: no story is processed, no
record is mutated, the dataset file is never written; however the
Firebase and OpenAI client initializations, the dataset read, and the
creation of the local images directory have already occurred before the
prompt. -/
theorem c3_decline_aborts (env : Env) (apiKey : Option String) (args : Args)
    (confirmInput : String) (stories0 : List Story) (cache0 : List String)
    (nowIso : String) (hk : apiKey.getD "" ≠ "")
    (ht : args.test = false) (hl : pyTruthyIntOpt args.level = false)
    (ha : args.all = true) (hc : confirmInput ≠ "yes") :
    mainRun env apiKey args confirmInput stories0 cache0 nowIso =
      { exitCode := 0, printedGuidance := false, printedCancelled := true,
        ioTrace := [Event.initFirebase, Event.initOpenAI,
          Event.loadDataset, Event.makeDirs],
        stories := stories0, saves := [],
        success_count := 0, fail_count := 0 } := by
  simp [mainRun, chooseIndices, hk, ht, hl, ha, hc]

/-- Witness for the amended C3: declining with `no`. -/
theorem c3_witness :
    mainRun cexEnv (some "k") allArgs "no" [markerStory] [] "T" =
      { exitCode := 0, printedGuidance := false, printedCancelled := true,
        ioTrace := [Event.initFirebase, Event.initOpenAI,
          Event.loadDataset, Event.makeDirs],
        stories := [markerStory], saves := [],
        success_count := 0, fail_count := 0 } :=
  c3_decline_aborts cexEnv (some "k") allArgs "no" [markerStory] [] "T"
    (by decide) rfl rfl rfl (by decide)

/-! Selection-mode lemmas. -/

/-- Membership in a Python integer range. -/
theorem mem_pyRangeInt {a b x : Int} :
    x ∈ pyRangeInt a b ↔ a ≤ x ∧ x < b := by
  simp only [pyRangeInt, List.mem_map, List.mem_range]
  constructor
  · rintro ⟨k, hk, rfl⟩
    omega
  · rintro ⟨h1, h2⟩
    exact ⟨(x - a).toNat, by omega, by omega⟩

/-- A Python integer range is strictly ascending. -/
theorem pairwise_pyRangeInt (a b : Int) :
    (pyRangeInt a b).Pairwise (· < ·) := by
  refine List.pairwise_map.mpr ?_
  exact (List.pairwise_lt_range (b - a).toNat).imp (by intro i j h; omega)

/-- An empty Python integer range. -/
theorem pyRangeInt_eq_nil {a b : Int} (h : b ≤ a) : pyRangeInt a b = [] := by
  have h0 : (b - a).toNat = 0 := by omega
  simp [pyRangeInt, h0]

/-- C5: in windowed mode (no `--test`, falsy `--level`, no `--all`), the
selection is exactly the ascending integers from `S = args.start` to
`min(S + C, N) - 1` inclusive, where `C = args.count` and `N` is the
dataset size; in particular it is empty whenever `S ≥ N`. -/
theorem c5_windowed_selection (args : Args) (stories : List Story)
    (confirmInput : String) (ht : args.test = false)
    (hl : pyTruthyIntOpt args.level = false) (ha : args.all = false) :
    chooseIndices args stories confirmInput =
      some (pyRangeInt args.start
        (min (args.start + args.count) (stories.length : Int))) ∧
    (∀ x : Int,
      x ∈ pyRangeInt args.start
          (min (args.start + args.count) (stories.length : Int)) ↔
        args.start ≤ x ∧
          x ≤ min (args.start + args.count) (stories.length : Int) - 1) ∧
    (pyRangeInt args.start
        (min (args.start + args.count) (stories.length : Int))).Pairwise
      (· < ·) ∧
    ((stories.length : Int) ≤ args.start →
      pyRangeInt args.start
        (min (args.start + args.count) (stories.length : Int)) = []) := by
  refine ⟨by simp [chooseIndices, ht, hl, ha], ?_, pairwise_pyRangeInt _ _, ?_⟩
  · intro x
    rw [mem_pyRangeInt]
    omega
  · intro hSN
    exact pyRangeInt_eq_nil (by omega)

/-- Witness for C5: default window over a 2-record dataset selects
exactly the indices 0 and 1. -/
theorem c5_witness :
    chooseIndices windowArgs [markerStory, failStory] "x" =
      some (pyRangeInt windowArgs.start
        (min (windowArgs.start + windowArgs.count)
          (([markerStory, failStory] : List Story).length : Int))) ∧
    (∀ x : Int,
      x ∈ pyRangeInt windowArgs.start
          (min (windowArgs.start + windowArgs.count)
            (([markerStory, failStory] : List Story).length : Int)) ↔
        windowArgs.start ≤ x ∧
          x ≤ min (windowArgs.start + windowArgs.count)
              (([markerStory, failStory] : List Story).length : Int) - 1) ∧
    (pyRangeInt windowArgs.start
        (min (windowArgs.start + windowArgs.count)
          (([markerStory, failStory] : List Story).length : Int))).Pairwise
      (· < ·) ∧
    ((([markerStory, failStory] : List Story).length : Int) ≤ windowArgs.start →
      pyRangeInt windowArgs.start
        (min (windowArgs.start + windowArgs.count)
          (([markerStory, failStory] : List Story).length : Int)) = []) :=
  c5_windowed_selection windowArgs [markerStory, failStory] "x" rfl rfl rfl

/-- Record whose difficulty level is 0, for the C4 counterexample. -/
def levelZeroStory : Story :=
  { id := "s3", title := "T3", imagePrompt := "r3", difficultyLevel := 0,
    coverImageURL := "", updatedAt := "old3" }

/-- Arguments passing `--level 0`. -/
def levelZeroArgs : Args :=
  { test := false, level := some 0, start := 0, count := 10, all := false }

/-- C4 counterexample: for the integer level parameter 0, the claimed
level-filter selection would be the single index 1 (the record whose
`difficultyLevel` is 0), but `elif args.level:` treats 0 as falsy, so the
run falls through to windowed mode and selects the indices 0 and 1. -/
theorem c4_counterexample :
    chooseIndices levelZeroArgs [markerStory, levelZeroStory] "x" =
      some [0, 1] ∧
    levelSelect [markerStory, levelZeroStory] 0 = [1] := by
  decide

/-- C4 amended: for every NONZERO integer level parameter `L` (and
`--test` absent), the selection is exactly the indices whose record has
`difficultyLevel = L`, in ascending index order, regardless of the other
mode flags; for `L = 0` Python truthiness skips the level branch. -/
theorem c4_level_selection (args : Args) (stories : List Story)
    (confirmInput : String) (L : Int) (ht : args.test = false)
    (hL : args.level = some L) (hnz : L ≠ 0) :
    chooseIndices args stories confirmInput = some (levelSelect stories L) ∧
    (∀ x : Int,
      x ∈ levelSelect stories L ↔
        0 ≤ x ∧ x < (stories.length : Int) ∧
          (stories.getD x.toNat defaultStory).difficultyLevel = L) ∧
    (levelSelect stories L).Pairwise (· < ·) := by
  refine ⟨?_, ?_, ?_⟩
  · simp [chooseIndices, ht, hL, pyTruthyIntOpt, hnz]
  · intro x
    simp only [levelSelect, List.mem_map, List.mem_filter, List.mem_range,
      decide_eq_true_eq]
    constructor
    · rintro ⟨i, ⟨hi, hlev⟩, rfl⟩
      refine ⟨by omega, by omega, ?_⟩
      simpa using hlev
    · rintro ⟨h0, hlen, hlev⟩
      exact ⟨x.toNat, ⟨by omega, hlev⟩, by omega⟩
  · refine List.pairwise_map.mpr ?_
    exact ((List.pairwise_lt_range stories.length).filter _).imp
      (by intro i j h; omega)

/-- Arguments passing `--level 2`. -/
def levelTwoArgs : Args :=
  { test := false, level := some 2, start := 0, count := 10, all := false }

/-- Witness for the amended C4: level 2 selects exactly index 1. -/
theorem c4_witness :
    chooseIndices levelTwoArgs [markerStory, failStory] "x" =
      some (levelSelect [markerStory, failStory] 2) ∧
    (∀ x : Int,
      x ∈ levelSelect [markerStory, failStory] 2 ↔
        0 ≤ x ∧ x < (([markerStory, failStory] : List Story).length : Int) ∧
          (([markerStory, failStory] : List Story).getD x.toNat
              defaultStory).difficultyLevel = 2) ∧
    (levelSelect [markerStory, failStory] 2).Pairwise (· < ·) :=
  c4_level_selection levelTwoArgs [markerStory, failStory] "x" 2 rfl rfl
    (by decide)

/-! Filename sanitization (C8). -/

/-- The sanitized title exactly as the claim words it: keep alphanumerics,
spaces, hyphens and underscores, strip all other characters, turn spaces
into underscores, truncate to at most 50 characters.  (No trailing-strip
step: the claim does not mention one.) -/
def specSanitizeClaim (alnum : Char → Bool) (title : String) : String :=
  String.mk
    (((title.toList.filter (keepChar alnum)).map
        (fun c => if c = ' ' then '_' else c)).take 50)

/-- The filename exactly as the claim words it. -/
def specFilenameClaim (alnum : Char → Bool) (story_index : Nat)
    (title : String) : String :=
  "story_" ++ pad3 story_index ++ "_" ++ specSanitizeClaim alnum title ++ ".png"

/-- C8 counterexample: for the title `"ab "` (trailing space) the code
produces `story_000_ab.png` — the `.rstrip()` of line 145 removes the
trailing space — while the claimed recipe keeps the space and turns it
into an underscore, producing `story_000_ab_.png`. -/
theorem c8_counterexample :
    localFilename Char.isAlphanum 0 "ab " = "story_000_ab.png" ∧
    specFilenameClaim Char.isAlphanum 0 "ab " = "story_000_ab_.png" ∧
    localFilename Char.isAlphanum 0 "ab " ≠
      specFilenameClaim Char.isAlphanum 0 "ab " := by
  decide

/-- Trailing-whitespace removal as a structural recursion, used for the
corrected wording of the sanitizer. -/
def specDropTrailingWS : List Char → List Char
  | [] => []
  | c :: rest =>
    let tail := specDropTrailingWS rest
    if tail.isEmpty && pyIsSpaceChar c then [] else c :: tail

/-- The sanitized title per the amended claim: keep the allowed
characters, remove trailing whitespace, turn spaces into underscores,
truncate to at most 50 characters. -/
def specSanitizeAmended (alnum : Char → Bool) (title : String) : String :=
  String.mk
    (((specDropTrailingWS (title.toList.filter (keepChar alnum))).map
        (fun c => if c = ' ' then '_' else c)).take 50)

/-- Python `rstrip` agrees with the structural trailing-whitespace
removal. -/
theorem pyRstrip_eq_specDropTrailingWS (l : List Char) :
    pyRstrip l = specDropTrailingWS l := by
  induction l with
  | nil => rfl
  | cons c rest ih =>
    have hA : pyRstrip rest =
        (List.dropWhile pyIsSpaceChar rest.reverse).reverse := rfl
    have hstep : pyRstrip (c :: rest) =
        (List.dropWhile pyIsSpaceChar (rest.reverse ++ [c])).reverse := by
      unfold pyRstrip
      rw [List.reverse_cons]
    rw [hstep, List.dropWhile_append]
    cases he : (List.dropWhile pyIsSpaceChar rest.reverse).isEmpty with
    | true =>
      have hsp : specDropTrailingWS rest = [] := by
        rw [← ih, hA, List.isEmpty_iff.mp he]
        rfl
      rw [if_pos rfl]
      cases hc : pyIsSpaceChar c with
      | true => simp [specDropTrailingWS, List.dropWhile_cons, hsp, hc]
      | false => simp [specDropTrailingWS, List.dropWhile_cons, hsp, hc]
    | false =>
      have hne : specDropTrailingWS rest ≠ [] := by
        rw [← ih, hA]
        intro h
        rw [List.reverse_eq_nil_iff] at h
        rw [h] at he
        simp at he
      have hEfalse : (specDropTrailingWS rest).isEmpty = false := by
        cases hE : (specDropTrailingWS rest).isEmpty
        · rfl
        · exact absurd (List.isEmpty_iff.mp hE) hne
      rw [if_neg (by simp)]
      rw [List.reverse_append]
      have hrhs : specDropTrailingWS (c :: rest) =
          c :: specDropTrailingWS rest := by
        simp only [specDropTrailingWS]
        rw [if_neg (by simp [hEfalse])]
      rw [hrhs, ← ih, hA]
      simp

/-- C8 amended: for every classification of alphanumerics, index and
title, the local filename is `story_` ++ zero-padded index ++ `_` ++ the
amended sanitized title ++ `.png`, where the sanitizer keeps
alphanumerics, spaces, hyphens and underscores, strips other characters,
removes trailing whitespace, turns spaces into underscores and truncates
to at most 50 characters; the sanitized part therefore has length at
most 50 and contains no space. -/
theorem c8_filename_amended (alnum : Char → Bool) (story_index : Nat)
    (title : String) :
    localFilename alnum story_index title =
      "story_" ++ pad3 story_index ++ "_" ++
        specSanitizeAmended alnum title ++ ".png" ∧
    (specSanitizeAmended alnum title).length ≤ 50 ∧
    ' ' ∉ (specSanitizeAmended alnum title).toList := by
  refine ⟨?_, ?_, ?_⟩
  · unfold localFilename safeTitle specSanitizeAmended
    rw [pyRstrip_eq_specDropTrailingWS]
  · show (List.take 50 _).length ≤ 50
    rw [List.length_take]
    omega
  · intro hmem
    have hmem2 := List.mem_of_mem_take hmem
    obtain ⟨c, _, hc⟩ := List.mem_map.mp hmem2
    by_cases h : c = ' '
    · rw [if_pos h] at hc
      exact absurd hc (by decide)
    · rw [if_neg h] at hc
      exact h hc

/-! Orchestrator-loop lemmas (C6, C1). -/

/-- The loop step on a successful story result. -/
theorem stepStory_of_some (env : Env) (nowIso : String) (st : LoopState)
    (i : Nat) (u : String)
    (h : (process_story env (st.stories.getD i defaultStory) i st.cache).url?
        = some u) :
    stepStory env nowIso st i =
      { stories := update_stories_json st.stories i u nowIso,
        cache := (process_story env (st.stories.getD i defaultStory) i
          st.cache).cache,
        success_count := st.success_count + 1,
        fail_count := st.fail_count,
        trace := st.trace ++
          (process_story env (st.stories.getD i defaultStory) i
            st.cache).events ++
          (if (st.success_count + 1) % 5 = 0 then [Event.saveDataset] else []),
        saves := st.saves ++
          (if (st.success_count + 1) % 5 = 0 then [st.success_count + 1]
            else []) } := by
  simp only [stepStory]
  rw [h]

/-- The loop step on a failed story result. -/
theorem stepStory_of_none (env : Env) (nowIso : String) (st : LoopState)
    (i : Nat)
    (h : (process_story env (st.stories.getD i defaultStory) i st.cache).url?
        = none) :
    stepStory env nowIso st i =
      { stories := st.stories,
        cache := (process_story env (st.stories.getD i defaultStory) i
          st.cache).cache,
        success_count := st.success_count,
        fail_count := st.fail_count + 1,
        trace := st.trace ++
          (process_story env (st.stories.getD i defaultStory) i
            st.cache).events,
        saves := st.saves } := by
  simp only [stepStory]
  rw [h]

/-- The success counter never decreases across the loop. -/
theorem success_le_foldl (env : Env) (nowIso : String) :
    ∀ (indices : List Nat) (st : LoopState),
      st.success_count ≤
        (indices.foldl (stepStory env nowIso) st).success_count := by
  intro indices
  induction indices with
  | nil => intro st; simp
  | cons i rest ih =>
    intro st
    refine le_trans ?_ (ih (stepStory env nowIso st i))
    cases h : (process_story env (st.stories.getD i defaultStory) i
        st.cache).url? with
    | some u => rw [stepStory_of_some env nowIso st i u h]; exact Nat.le_succ _
    | none => rw [stepStory_of_none env nowIso st i h]

/-- Checkpoint instrumentation across the loop: the success counts at
which `save_stories_json` fires are exactly the multiples of 5 passed by
the cumulative success counter. -/
theorem foldl_saves (env : Env) (nowIso : String) :
    ∀ (indices : List Nat) (st : LoopState),
      (indices.foldl (stepStory env nowIso) st).saves =
        st.saves ++
          (List.range' (st.success_count + 1)
            ((indices.foldl (stepStory env nowIso) st).success_count
              - st.success_count)).filter
            (fun m => decide (m % 5 = 0)) := by
  intro indices
  induction indices with
  | nil => intro st; simp
  | cons i rest ih =>
    intro st
    have hmono := success_le_foldl env nowIso rest (stepStory env nowIso st i)
    cases h : (process_story env (st.stories.getD i defaultStory) i
        st.cache).url? with
    | some u =>
      have hs := stepStory_of_some env nowIso st i u h
      have hsc : (stepStory env nowIso st i).success_count
          = st.success_count + 1 := by rw [hs]
      have hsaves : (stepStory env nowIso st i).saves
          = st.saves ++
            (if (st.success_count + 1) % 5 = 0 then [st.success_count + 1]
              else []) := by rw [hs]
      rw [hsc] at hmono
      rw [List.foldl_cons, ih (stepStory env nowIso st i), hsaves, hsc]
      have hn : (rest.foldl (stepStory env nowIso)
            (stepStory env nowIso st i)).success_count - st.success_count
          = ((rest.foldl (stepStory env nowIso)
            (stepStory env nowIso st i)).success_count
              - (st.success_count + 1)) + 1 := by omega
      rw [hn, List.range'_succ, List.filter_cons]
      by_cases h5 : (st.success_count + 1) % 5 = 0
      · simp [h5]
      · simp [h5]
    | none =>
      have hs := stepStory_of_none env nowIso st i h
      have hsc : (stepStory env nowIso st i).success_count
          = st.success_count := by rw [hs]
      have hsaves : (stepStory env nowIso st i).saves = st.saves := by
        rw [hs]
      rw [List.foldl_cons, ih (stepStory env nowIso st i), hsaves, hsc]

/-- C6: over any run, the dataset is persisted during the loop exactly
when the cumulative success count reaches a (positive) multiple of 5 —
the recorded save points are the multiples of 5 among `1..success_count`
in order — plus exactly one unconditional final persist, regardless of
how failures are interleaved (the trace of success counts at persist
time depends only on the final success count).  For a run with 12
successes this yields persists at success counts 5 and 10 plus the final
one. -/
theorem c6_checkpoint_cadence (env : Env) (nowIso : String)
    (stories : List Story) (cache : List String) (indices : List Nat) :
    (runBatch env nowIso stories cache indices).saves =
      ((List.range' 1
          ((runBatch env nowIso stories cache indices).success_count)).filter
        (fun m => decide (m % 5 = 0))) ++
      [(runBatch env nowIso stories cache indices).success_count] := by
  unfold runBatch
  dsimp only
  rw [foldl_saves]
  simp

/-! Second-run analysis (C1). -/

/-- Event counting distributes over trace concatenation. -/
theorem genCalls_append (a b : List Event) :
    genCalls (a ++ b) = genCalls a + genCalls b :=
  List.countP_append _ a b

/-- Event counting distributes over trace concatenation. -/
theorem uploadCalls_append (a b : List Event) :
    uploadCalls (a ++ b) = uploadCalls a + uploadCalls b :=
  List.countP_append _ a b

/-- Event counting distributes over trace concatenation. -/
theorem fileWrites_append (a b : List Event) :
    fileWrites (a ++ b) = fileWrites a + fileWrites b :=
  List.countP_append _ a b

/-- A conditional checkpoint save contributes no generation call. -/
theorem genCalls_saveIf (c : Prop) [Decidable c] :
    genCalls (if c then [Event.saveDataset] else []) = 0 := by
  by_cases h : c
  · rw [if_pos h]; rfl
  · rw [if_neg h]; rfl

/-- A conditional checkpoint save contributes no upload call. -/
theorem uploadCalls_saveIf (c : Prop) [Decidable c] :
    uploadCalls (if c then [Event.saveDataset] else []) = 0 := by
  by_cases h : c
  · rw [if_pos h]; rfl
  · rw [if_neg h]; rfl

/-- A conditional checkpoint save contributes no file write. -/
theorem fileWrites_saveIf (c : Prop) [Decidable c] :
    fileWrites (if c then [Event.saveDataset] else []) = 0 := by
  by_cases h : c
  · rw [if_pos h]; rfl
  · rw [if_neg h]; rfl

/-- Reading back the element just set, within bounds. -/
theorem getD_set_eq {α : Type} (l : List α) (i : Nat) (a d : α)
    (h : i < l.length) : (l.set i a).getD i d = a := by
  rw [List.getD_eq_getElem?_getD, List.getElem?_set]
  simp [h]

/-- Reading another position after a set. -/
theorem getD_set_ne {α : Type} (l : List α) (i j : Nat) (a d : α)
    (h : i ≠ j) : (l.set i a).getD j d = l.getD j d := by
  rw [List.getD_eq_getElem?_getD, List.getElem?_set, if_neg h,
    ← List.getD_eq_getElem?_getD]

/-- A record needing no work: empty prompt or marker-bearing URL. -/
def Done (r : Story) : Prop :=
  r.imagePrompt = "" ∨ pyInStr firebaseMarker r.coverImageURL = true

instance (r : Story) : Decidable (Done r) := by
  unfold Done
  infer_instance

/-- Record-level similarity: `r2` agrees with `r1` on every field except
possibly `updatedAt`, which is either unchanged or rewritten to the run
timestamp `t` (isoformat + `Z`). -/
def SimAt (t : String) (r1 r2 : Story) : Prop :=
  r2.id = r1.id ∧ r2.title = r1.title ∧ r2.imagePrompt = r1.imagePrompt ∧
  r2.difficultyLevel = r1.difficultyLevel ∧
  r2.coverImageURL = r1.coverImageURL ∧
  (r2.updatedAt = r1.updatedAt ∨ r2.updatedAt = t ++ "Z")

/-- Dataset-level similarity: same length, recordwise `SimAt`. -/
def SimStories (t : String) (D S : List Story) : Prop :=
  S.length = D.length ∧
  ∀ j : Nat, SimAt t (D.getD j defaultStory) (S.getD j defaultStory)

/-- Similarity is reflexive. -/
theorem SimAt_refl (t : String) (r : Story) : SimAt t r r :=
  ⟨rfl, rfl, rfl, rfl, rfl, Or.inl rfl⟩

/-- Similarity is reflexive. -/
theorem SimStories_refl (t : String) (D : List Story) : SimStories t D D :=
  ⟨rfl, fun j => SimAt_refl t _⟩

/-- One loop step preserves the dataset length. -/
theorem stepStory_stories_length (env : Env) (nowIso : String)
    (st : LoopState) (i : Nat) :
    (stepStory env nowIso st i).stories.length = st.stories.length := by
  cases h : (process_story env (st.stories.getD i defaultStory) i
      st.cache).url? with
  | some u =>
    rw [stepStory_of_some env nowIso st i u h]
    exact List.length_set st.stories i _
  | none => rw [stepStory_of_none env nowIso st i h]

/-- The loop preserves the dataset length. -/
theorem foldl_stories_length (env : Env) (nowIso : String) :
    ∀ (indices : List Nat) (st : LoopState),
      ((indices.foldl (stepStory env nowIso) st).stories).length
        = st.stories.length := by
  intro indices
  induction indices with
  | nil => intro st; rfl
  | cons i rest ih =>
    intro st
    rw [List.foldl_cons, ih (stepStory env nowIso st i),
      stepStory_stories_length]

/-- A whole run preserves the dataset length. -/
theorem runBatch_stories_length (env : Env) (nowIso : String)
    (stories : List Story) (cache : List String) (indices : List Nat) :
    (runBatch env nowIso stories cache indices).stories.length
      = stories.length := by
  unfold runBatch
  dsimp only
  rw [foldl_stories_length]

/-- Core no-work lemma: if every selected index points (in the reference
dataset `D`) at a record that is `Done`, and the loop state is
`SimStories`-related to `D`, then the loop performs no generation, upload
or file write, leaves the cache untouched, and keeps the dataset
`SimStories`-related to `D`. -/
theorem foldl_done (env : Env) (t : String) :
    ∀ (indices : List Nat) (D : List Story) (st : LoopState),
      (∀ i ∈ indices, i < D.length) →
      (∀ i ∈ indices, Done (D.getD i defaultStory)) →
      SimStories t D st.stories →
      SimStories t D ((indices.foldl (stepStory env t) st).stories) ∧
      (indices.foldl (stepStory env t) st).cache = st.cache ∧
      genCalls (indices.foldl (stepStory env t) st).trace
        = genCalls st.trace ∧
      uploadCalls (indices.foldl (stepStory env t) st).trace
        = uploadCalls st.trace ∧
      fileWrites (indices.foldl (stepStory env t) st).trace
        = fileWrites st.trace := by
  intro indices
  induction indices with
  | nil =>
    intro D st hb hd hsim
    exact ⟨hsim, rfl, rfl, rfl, rfl⟩
  | cons i rest ih =>
    intro D st hb hd hsim
    have hbi : i < D.length := hb i (List.mem_cons_self i rest)
    have hdi : Done (D.getD i defaultStory) :=
      hd i (List.mem_cons_self i rest)
    have hsi := hsim.2 i
    by_cases hemp : (st.stories.getD i defaultStory).imagePrompt = ""
    · -- empty prompt: failure path, state unchanged except fail counter
      have hp := process_story_of_empty env
        (st.stories.getD i defaultStory) i st.cache hemp
      have hurl : (process_story env (st.stories.getD i defaultStory) i
          st.cache).url? = none := by rw [hp]
      have hs := stepStory_of_none env t st i hurl
      have hstories : (stepStory env t st i).stories = st.stories := by
        rw [hs]
      have hcache : (stepStory env t st i).cache = st.cache := by
        rw [hs, hp]
      have htrace : (stepStory env t st i).trace = st.trace ++ [] := by
        rw [hs, hp]
      obtain ⟨s1, s2, s3, s4, s5⟩ := ih D (stepStory env t st i)
        (fun k hk => hb k (List.mem_cons_of_mem i hk))
        (fun k hk => hd k (List.mem_cons_of_mem i hk))
        (by rw [hstories]; exact hsim)
      rw [List.foldl_cons]
      refine ⟨s1, by rw [s2, hcache], ?_, ?_, ?_⟩
      · rw [s3, htrace, genCalls_append]; rfl
      · rw [s4, htrace, uploadCalls_append]; rfl
      · rw [s5, htrace, fileWrites_append]; rfl
    · -- non-empty prompt: Done forces the marker; skip-success path
      have hmark : pyInStr firebaseMarker
          ((st.stories.getD i defaultStory).coverImageURL) = true := by
        rcases hdi with h | h
        · exact absurd (by rw [hsi.2.2.1, h]) hemp
        · rw [hsi.2.2.2.2.1]
          exact h
      have hp := process_story_of_marker env
        (st.stories.getD i defaultStory) i st.cache hemp hmark
      have hurl : (process_story env (st.stories.getD i defaultStory) i
          st.cache).url?
          = some ((st.stories.getD i defaultStory).coverImageURL) := by
        rw [hp]
      have hs := stepStory_of_some env t st i _ hurl
      have hstories : (stepStory env t st i).stories
          = st.stories.set i
            { st.stories.getD i defaultStory with
                coverImageURL :=
                  (st.stories.getD i defaultStory).coverImageURL,
                updatedAt := t ++ "Z" } := by
        rw [hs]
        rfl
      have hcache : (stepStory env t st i).cache = st.cache := by
        rw [hs, hp]
      have htrace : (stepStory env t st i).trace = st.trace ++ [] ++
          (if (st.success_count + 1) % 5 = 0 then [Event.saveDataset]
            else []) := by
        rw [hs, hp]
      have hilen : i < st.stories.length := by
        rw [hsim.1]
        exact hbi
      have hsim1 : SimStories t D ((stepStory env t st i).stories) := by
        rw [hstories]
        refine ⟨by rw [List.length_set]; exact hsim.1, ?_⟩
        intro j
        by_cases hij : i = j
        · subst hij
          rw [getD_set_eq _ _ _ _ hilen]
          exact ⟨hsi.1, hsi.2.1, hsi.2.2.1, hsi.2.2.2.1,
            hsi.2.2.2.2.1, Or.inr rfl⟩
        · rw [getD_set_ne _ _ _ _ _ hij]
          exact hsim.2 j
      obtain ⟨s1, s2, s3, s4, s5⟩ := ih D (stepStory env t st i)
        (fun k hk => hb k (List.mem_cons_of_mem i hk))
        (fun k hk => hd k (List.mem_cons_of_mem i hk))
        hsim1
      rw [List.foldl_cons]
      refine ⟨s1, by rw [s2, hcache], ?_, ?_, ?_⟩
      · rw [s3, htrace, genCalls_append, genCalls_append, genCalls_saveIf]
        rfl
      · rw [s4, htrace, uploadCalls_append, uploadCalls_append,
          uploadCalls_saveIf]
        rfl
      · rw [s5, htrace, fileWrites_append, fileWrites_append,
          fileWrites_saveIf]
        rfl

/-- A whole run over a dataset whose selected records are all `Done`
performs no generation, upload or file write, leaves the file cache
unchanged, and changes at most the `updatedAt` of selected records. -/
theorem runBatch_done (env : Env) (t : String) (D : List Story)
    (cache : List String) (indices : List Nat)
    (hb : ∀ i ∈ indices, i < D.length)
    (hd : ∀ i ∈ indices, Done (D.getD i defaultStory)) :
    genCalls (runBatch env t D cache indices).trace = 0 ∧
    uploadCalls (runBatch env t D cache indices).trace = 0 ∧
    fileWrites (runBatch env t D cache indices).trace = 0 ∧
    (runBatch env t D cache indices).cache = cache ∧
    SimStories t D (runBatch env t D cache indices).stories := by
  obtain ⟨s1, s2, s3, s4, s5⟩ := foldl_done env t indices D
    { stories := D, cache := cache, success_count := 0, fail_count := 0,
      trace := [], saves := [] } hb hd (SimStories_refl t D)
  unfold runBatch
  dsimp only
  refine ⟨?_, ?_, ?_, s2, s1⟩
  · rw [genCalls_append, s3]
    rfl
  · rw [uploadCalls_append, s4]
    rfl
  · rw [fileWrites_append, s5]
    rfl

/-- C1 amended: running the batch twice over the same selection with no
intervening external change, PROVIDED the first run left every selected
record either with an empty prompt or with a marker-bearing URL (that
is, no selected record failed generation or upload while lacking the
marker — which is automatic when the storage provider URLs contain the
marker and every processed story succeeded), the second run performs
zero generation calls, zero upload calls and zero file writes, leaves
the local file cache unchanged, and leaves every record identical except
that `updatedAt` of the re-skipped records is rewritten to the second
second timestamp (the claimed `left untouched, including updatedAt`
fails: line 172 rewrites `updatedAt` on every non-empty result,
including the skip path that returns the existing URL). -/
theorem c1_second_run_amended (env : Env) (t1 t2 : String)
    (stories0 : List Story) (cache0 : List String) (indices : List Nat)
    (hb : ∀ i ∈ indices, i < stories0.length)
    (hd : ∀ i ∈ indices,
      Done ((runBatch env t1 stories0 cache0 indices).stories.getD i
        defaultStory)) :
    genCalls (runBatch env t2
        (runBatch env t1 stories0 cache0 indices).stories
        (runBatch env t1 stories0 cache0 indices).cache indices).trace = 0 ∧
    uploadCalls (runBatch env t2
        (runBatch env t1 stories0 cache0 indices).stories
        (runBatch env t1 stories0 cache0 indices).cache indices).trace = 0 ∧
    fileWrites (runBatch env t2
        (runBatch env t1 stories0 cache0 indices).stories
        (runBatch env t1 stories0 cache0 indices).cache indices).trace = 0 ∧
    (runBatch env t2
        (runBatch env t1 stories0 cache0 indices).stories
        (runBatch env t1 stories0 cache0 indices).cache indices).cache
      = (runBatch env t1 stories0 cache0 indices).cache ∧
    SimStories t2 (runBatch env t1 stories0 cache0 indices).stories
      (runBatch env t2
        (runBatch env t1 stories0 cache0 indices).stories
        (runBatch env t1 stories0 cache0 indices).cache indices).stories :=
  runBatch_done env t2 (runBatch env t1 stories0 cache0 indices).stories
    (runBatch env t1 stories0 cache0 indices).cache indices
    (fun i hi => by
      rw [runBatch_stories_length]
      exact hb i hi)
    hd

/-- C1 counterexample: a marker-bearing record and a record whose
generation fails.  After the first run, the second run changes the
dataset (the marker-bearing record gets a fresh `updatedAt`) and
performs one additional generation call (the failed record is retried),
refuting both the `identical Dataset content / updatedAt untouched`
part and the `zero additional generation calls` part of the claim. -/
theorem c1_counterexample :
    (runBatch cexEnv "B"
        (runBatch cexEnv "A" [markerStory, failStory] [] [0, 1]).stories
        (runBatch cexEnv "A" [markerStory, failStory] [] [0, 1]).cache
        [0, 1]).stories ≠
      (runBatch cexEnv "A" [markerStory, failStory] [] [0, 1]).stories ∧
    genCalls (runBatch cexEnv "B"
        (runBatch cexEnv "A" [markerStory, failStory] [] [0, 1]).stories
        (runBatch cexEnv "A" [markerStory, failStory] [] [0, 1]).cache
        [0, 1]).trace = 1 := by
  decide

/-- Witness for the amended C1 on a one-record marker-bearing dataset. -/
theorem c1_witness :
    genCalls (runBatch cexEnv "B"
        (runBatch cexEnv "A" [markerStory] [] [0]).stories
        (runBatch cexEnv "A" [markerStory] [] [0]).cache [0]).trace = 0 ∧
    (runBatch cexEnv "B"
        (runBatch cexEnv "A" [markerStory] [] [0]).stories
        (runBatch cexEnv "A" [markerStory] [] [0]).cache [0]).cache
      = (runBatch cexEnv "A" [markerStory] [] [0]).cache :=
  ⟨(c1_second_run_amended cexEnv "A" "B" [markerStory] [] [0]
      (by decide) (by decide)).1,
   (c1_second_run_amended cexEnv "A" "B" [markerStory] [] [0]
      (by decide) (by decide)).2.2.2.1⟩

end GenStoryImages
